import Mathlib

/-!
# Verification of the PDF page-processing worker

Shallow embedding of `src/workers/pdf-processor.worker.ts` (the queue-based
worker, the authoritative processing pipeline of the repository) together
with the artifacts it persists, and proofs checking the specification's
claims about it.

Numeric conventions: JavaScript's `Math.round` is modelled exactly on
rationals as `⌊x + 1/2⌋` (round half toward +∞, which agrees with JS for the
non-negative values arising here); machine floating point is modelled by
exact arithmetic.  For kernel computability the progress formula is stated
in integer arithmetic and certified against the literal rational
transcription by `pageProgress_eq_round`.
-/

namespace PdfWorker

/-- JavaScript `Math.round` on a non-negative rational: `⌊x + 1/2⌋`. -/
def jsRound (x : ℚ) : ℤ := ⌊x + 1/2⌋

/-- The progress value the worker writes to the Document Record when page
`p` of a document with `pageCount` pages completes successfully
(`pdf-processor.worker.ts` lines 112–121):

`Math.round(Math.min(95, 15 + (80 / pageCount) * pageNumber))`.

Stated in exact integer arithmetic (`min 95 ⌊(31N + 160p) / (2N)⌋` with
floor division), which for `pageCount > 0` equals the literal expression;
`pageProgress_eq_round` certifies the equality. -/
def pageProgress (pageCount p : ℕ) : ℕ :=
  min 95 ((31 * pageCount + 160 * p) / (2 * pageCount))

/-- Literal transcription of the source's progress expression on exact
rationals: `Math.round(Math.min(95, 15 + (80 / pageCount) * pageNumber))`. -/
def pageProgressRat (pageCount p : ℕ) : ℤ :=
  jsRound (min 95 (15 + (80 / (pageCount : ℚ)) * (p : ℚ)))

/-! ## File-system paths and storage keys used by the worker -/

/-- Temp file holding the downloaded PDF (line 59): `temp/<documentId>.pdf`. -/
def tempFilePath (documentId : ℕ) : String :=
  "temp/" ++ toString documentId ++ ".pdf"

/-- Per-page pre-split single-page PDF file (line 94):
`temp/<documentId>_page_<pageNumber>.pdf`. -/
def singlePagePdfPath (documentId pageNumber : ℕ) : String :=
  "temp/" ++ toString documentId ++ "_page_" ++ toString pageNumber ++ ".pdf"

/-- Aggregate JSON output file (line 157): `data/<documentId>_firebase_images.json`. -/
def jsonFilePath (documentId : ℕ) : String :=
  "data/" ++ toString documentId ++ "_firebase_images.json"

/-- Firebase storage key for one page's image (line 103). -/
def storageKey (documentId pageNumber : ℕ) : String :=
  "documents/" ++ toString documentId ++ "/page_" ++ toString pageNumber ++ ".png"

/-- Download URL handed back by Firebase for a stored key, modelled as a
function of the key alone (idempotent overwrite-by-key store). -/
def firebaseUrlFor (documentId pageNumber : ℕ) : String :=
  "https://firebase/" ++ storageKey documentId pageNumber

/-! ## Data model -/

/-- One element of `successfulResults` (lines 141–144): the value a fulfilled
page task returns at line 123, `{ pageNumber, firebaseUrl }`. -/
structure PageImage where
  pageNumber : ℕ
  firebaseUrl : String
deriving DecidableEq, Repr

/-- The persisted aggregate (lines 160–164):
`{ documentId, pageCount, images: [...] }`. -/
structure Aggregate where
  documentId : ℕ
  pageCount : ℕ
  images : List PageImage
deriving DecidableEq, Repr

/-- The processing-state fields of the `documents` row that the worker
writes (`processingProgress`, `processingComplete`, `processingError`,
`updatedAt`). -/
structure DocumentRecord where
  processingProgress : ℕ
  processingComplete : Bool
  processingError : Option String
  updatedAt : ℕ
deriving DecidableEq, Repr

/-- The per-page `db.update` (lines 116–121): sets `updatedAt` and
`processingProgress`, leaves every other field unchanged. -/
def progressUpdate (r : DocumentRecord) (now value : ℕ) : DocumentRecord :=
  { r with updatedAt := now, processingProgress := value }

/-- The finalizing `db.update` (lines 173–179): sets `updatedAt`,
`processingProgress := 100`, `processingComplete := true`. -/
def finalizeUpdate (r : DocumentRecord) (now : ℕ) : DocumentRecord :=
  { r with updatedAt := now, processingProgress := 100, processingComplete := true }

/-- The catch-block `db.update` (lines 189–194): sets `updatedAt` and
`processingError := <message>`, leaves every other field unchanged. -/
def errorUpdate (r : DocumentRecord) (now : ℕ) (msg : String) : DocumentRecord :=
  { r with updatedAt := now, processingError := some msg }

/-! ## One page task (`processPage`, lines 80–128)

The task is modelled by the sequence of externally visible operations it
performs, as a function of which of its two fallible steps (the
`sharp` render at lines 98–100, the `uploadBytes` call at line 104) throws.
An exception anywhere makes the `catch` at line 124 rethrow, so the task's
promise rejects and no later operation of the task runs. -/

/-- Externally visible operations of one page task. -/
inductive PageOp where
  | loadFullDoc
  | writeSinglePagePdf (path : String)
  | sharpRender (path : String)
  | uploadAttempt (key : String)
  | getDownloadUrl (key : String)
  | unlinkSinglePagePdf (path : String)
  | dbProgressWrite (value : ℕ)
deriving DecidableEq, Repr

/-- Which of the page task's two fallible steps throw. -/
structure PageFault where
  renderFails : Bool
  uploadFails : Bool
deriving DecidableEq, Repr

/-- Operation trace of `processPage documentId pageNumber` for a document
with `pageCount` pages, straight-line translation of lines 85–123: load the
whole PDF, write the pre-split single-page PDF, render it with `sharp`
(throwing stops here), attempt the upload exactly once (throwing stops
here), fetch the download URL, unlink the single-page PDF, and write the
progress row. -/
def processPageOps (documentId pageCount pageNumber : ℕ) (f : PageFault) : List PageOp :=
  [PageOp.loadFullDoc,
   PageOp.writeSinglePagePdf (singlePagePdfPath documentId pageNumber),
   PageOp.sharpRender (singlePagePdfPath documentId pageNumber)] ++
  if f.renderFails then [] else
    [PageOp.uploadAttempt (storageKey documentId pageNumber)] ++
    if f.uploadFails then [] else
      [PageOp.getDownloadUrl (storageKey documentId pageNumber),
       PageOp.unlinkSinglePagePdf (singlePagePdfPath documentId pageNumber),
       PageOp.dbProgressWrite (pageProgress pageCount pageNumber)]

/-- The settled value of one page task: `some` image on fulfilment (line
123), `none` when the task rejected. -/
def processPageResult (documentId pageNumber : ℕ) (f : PageFault) : Option PageImage :=
  if f.renderFails || f.uploadFails then none
  else some ⟨pageNumber, firebaseUrlFor documentId pageNumber⟩

/-- Recognizer for upload attempts in a page-task trace. -/
def isUploadAttempt : PageOp → Bool
  | PageOp.uploadAttempt _ => true
  | _ => false

/-- Number of upload attempts a page task makes. -/
def uploadAttempts (documentId pageCount pageNumber : ℕ) (f : PageFault) : ℕ :=
  (processPageOps documentId pageCount pageNumber f).countP isUploadAttempt

/-! ## The job-level run (worker processor body, lines 37–197)

The environment records which fallible job-level steps succeed and which
pages' tasks reject; the completion order (`order`) is the scheduler-chosen
order in which page tasks finish, an arbitrary permutation of the page
numbers — `p-limit` with width 2 lets tasks finish out of order. -/

/-- Job-level operations the worker performs. -/
inductive WorkerOp where
  | fsWrite (path : String)
  | fsUnlink (path : String)
  | dbWrite (fields : List String)
  | jobProgress (n : ℕ)
deriving DecidableEq, Repr

/-- Outcome environment of one run: which fallible steps succeed.
`failedPages` is the set of pages whose task rejects (render or upload
threw). -/
structure Env where
  fetchOk : Bool
  extractOk : Bool
  pageCount : ℕ
  failedPages : List ℕ
  jsonWriteOk : Bool
deriving DecidableEq, Repr

/-- Error message of a failed source fetch (line 46). -/
def fetchErrorMsg : String := "Failed to fetch PDF"

/-- Error message of a crashed `PDFLoader` extraction (lines 66–67). -/
def extractErrorMsg : String := "PDFLoader failed"

/-- Error message of a failed aggregate JSON write (lines 158–165). -/
def jsonWriteErrorMsg : String := "Failed to write JSON"

/-- `pageNumbers` (line 131): `Array.from({length: pageCount}, (_, i) => i + 1)`,
i.e. `[1, 2, ..., pageCount]`. -/
def pageNumbersList (pageCount : ℕ) : List ℕ := List.range' 1 pageCount

/-- The `Promise.allSettled` results in input order (lines 134–138):
`allSettled` preserves the order of its argument array, so this list is
indexed by page number regardless of completion order. -/
def settledResults (documentId : ℕ) (env : Env) : List (Option PageImage) :=
  (pageNumbersList env.pageCount).map fun p =>
    if p ∈ env.failedPages then none
    else some ⟨p, firebaseUrlFor documentId p⟩

/-- `successfulResults` (lines 141–144): keep fulfilled results only. -/
def successfulResults (documentId : ℕ) (env : Env) : List PageImage :=
  (settledResults documentId env).filterMap id

/-- The `.sort((a, b) => a.pageNumber - b.pageNumber)` at line 163. -/
def sortByPageNumber (l : List PageImage) : List PageImage :=
  l.insertionSort fun a b => a.pageNumber ≤ b.pageNumber

/-- The aggregate object the worker serializes at lines 160–164. -/
def buildAggregate (documentId : ℕ) (env : Env) : Aggregate :=
  { documentId := documentId
    pageCount := env.pageCount
    images := sortByPageNumber (successfulResults documentId env) }

/-- The sequence of `processingProgress` values written to the Document
Record during page processing, in completion order: each page whose task
reaches its progress update (i.e. did not reject) writes
`pageProgress pageCount p` when it completes. -/
def progressWrites (env : Env) (order : List ℕ) : List ℕ :=
  (order.filter fun p => p ∉ env.failedPages).map (pageProgress env.pageCount)

/-- The full chronological sequence of `processingProgress` values one run
writes to the Document Record: nothing before extraction, one write per
non-rejected page in completion order (lines 116–121), then `100` from the
finalizing update (line 176) when the run reaches it. -/
def progressTrace (env : Env) (order : List ℕ) : List ℕ :=
  if env.fetchOk && env.extractOk then
    progressWrites env order ++ (if env.jsonWriteOk then [100] else [])
  else []

/-- A completion order is any permutation of the fan-out list. -/
def validOrder (env : Env) (order : List ℕ) : Prop :=
  order.Perm (pageNumbersList env.pageCount)

instance (env : Env) (order : List ℕ) : Decidable (validOrder env order) :=
  inferInstanceAs (Decidable (order.Perm (pageNumbersList env.pageCount)))

/-- Everything one run of the worker leaves behind. -/
structure RunOutcome where
  record : DocumentRecord
  aggregate : Option Aggregate
  queueError : Option String
  ops : List WorkerOp
deriving DecidableEq, Repr

/-- The operations the `catch` block (lines 185–197) performs: a single
`db.update` setting `updatedAt` and `processingError`, then rethrow.  It
deletes no file. -/
def catchOps : List WorkerOp :=
  [WorkerOp.dbWrite ["updatedAt", "processingError"]]

/-- The `try` body of the worker processor (lines 40–184): on an exception
returns the message, the Document Record and the operation list at the
point of the throw; on success returns the finalized record, the persisted
aggregate and the full operation list. -/
def runTry (documentId : ℕ) (env : Env) (order : List ℕ) (r0 : DocumentRecord) :
    Except (String × DocumentRecord × List WorkerOp)
      (DocumentRecord × Aggregate × List WorkerOp) :=
  if env.fetchOk = false then Except.error (fetchErrorMsg, r0, [])
  else
    let ops1 := [WorkerOp.fsWrite (tempFilePath documentId), WorkerOp.jobProgress 10]
    if env.extractOk = false then Except.error (extractErrorMsg, r0, ops1)
    else
      let ops2 := ops1 ++ [WorkerOp.jobProgress 15]
      let writes := progressWrites env order
      let rPages := writes.foldl (fun r v => progressUpdate r 0 v) r0
      let ops3 := ops2 ++
        (writes.map fun _ => WorkerOp.dbWrite ["updatedAt", "processingProgress"]) ++
        [WorkerOp.jobProgress 95]
      if env.jsonWriteOk = false then Except.error (jsonWriteErrorMsg, rPages, ops3)
      else
        let agg := buildAggregate documentId env
        let ops4 := ops3 ++
          [WorkerOp.fsWrite (jsonFilePath documentId),
           WorkerOp.fsUnlink (tempFilePath documentId),
           WorkerOp.dbWrite ["updatedAt", "processingProgress", "processingComplete"],
           WorkerOp.jobProgress 100]
        Except.ok (finalizeUpdate rPages 0, agg, ops4)

/-- One whole run of the worker processor: the `try` body wrapped in the
`catch` block.  On an exception the catch updates the record (lines
189–194) and rethrows, so the message propagates to BullMQ as
`queueError`. -/
def runWorker (documentId : ℕ) (env : Env) (order : List ℕ) (r0 : DocumentRecord) :
    RunOutcome :=
  match runTry documentId env order r0 with
  | Except.ok (r, agg, ops) =>
      { record := r, aggregate := some agg, queueError := none, ops := ops }
  | Except.error (msg, r, ops) =>
      { record := errorUpdate r 0 msg, aggregate := none,
        queueError := some msg, ops := ops ++ catchOps }

/-- The queue is created with whole-job retry options
(`pdf-processor.worker.ts` lines 21–32): 3 attempts, exponential backoff
with base delay 5000 ms. -/
structure QueueOptions where
  attempts : ℕ
  backoffType : String
  backoffDelay : ℕ
deriving DecidableEq, Repr

/-- `defaultJobOptions` of `pdfProcessingQueue` (lines 23–31). -/
def pdfProcessingQueueOptions : QueueOptions :=
  { attempts := 3, backoffType := "exponential", backoffDelay := 5000 }

/-- `pLimit(2)` (line 77): page-task concurrency width within one job. -/
def pageConcurrencyWidth : ℕ := 2

/-! ## JSON shape of the persisted artifact -/

/-- Minimal JSON syntax, enough to state the shape of the persisted
artifact. -/
inductive Json where
  | jnum (n : ℕ)
  | jstr (s : String)
  | jnull
  | jarr (xs : List Json)
  | jobj (fields : List (String × Json))

/-- Top-level keys of a JSON object. -/
def Json.topKeys : Json → List String
  | Json.jobj fields => fields.map Prod.fst
  | _ => []

/-- Serialization of one element of the `images` array (the object built at
line 123 and serialized at lines 160–164). -/
def imageJson (img : PageImage) : Json :=
  Json.jobj [("pageNumber", Json.jnum img.pageNumber),
             ("firebaseUrl", Json.jstr img.firebaseUrl)]

/-- Serialization of the aggregate written by `JSON.stringify` at lines
160–164: `{ documentId, pageCount, images: [...] }`. -/
def aggregateJson (a : Aggregate) : Json :=
  Json.jobj [("documentId", Json.jnum a.documentId),
             ("pageCount", Json.jnum a.pageCount),
             ("images", Json.jarr (a.images.map imageJson))]

/-! ## Spec-side formulations, for refinement comparisons

Each definition below follows the specification's words (not the source)
and exists only to be compared against the source-derived definitions
above. -/

/-- The spec's progress formula after the `k`-th completed page of an
`N`-page job: `15 + round(80·k/N)`, clamped to at most 95
(`round` is JS `Math.round`; on naturals `round(80k/N) = (160k+N)/(2N)`
in floor division). -/
def specProgressAfter (pageCount k : ℕ) : ℕ :=
  min 95 (15 + (160 * k + pageCount) / (2 * pageCount))

/-- The spec's upload retry policy: on a persistently failing upload the
page task makes `1 + maxRetries` attempts in total. -/
def specUploadAttemptsOnFailure (maxRetries : ℕ) : ℕ := 1 + maxRetries

/-- The spec's per-page upload backoff: delay before the retry following
attempt number `attempt` is `baseDelay * 2 ^ attempt`. -/
def specBackoffDelay (baseDelay attempt : ℕ) : ℕ := baseDelay * 2 ^ attempt

/-- The spec's top-level artifact keys:
`{documentId, pageCount, pages, processedDate}`. -/
def specArtifactTopKeys : List String :=
  ["documentId", "pageCount", "pages", "processedDate"]

/-- The spec's per-page artifact entry keys:
`{pageNumber, text, imageUrl, status}`. -/
def specPageEntryKeys : List String :=
  ["pageNumber", "text", "imageUrl", "status"]

/-! ## Supporting lemmas -/

theorem pageProgress_eq_round (N p : ℕ) (h : 0 < N) :
    (pageProgress N p : ℤ) = pageProgressRat N p := by
  have hN : (N : ℚ) ≠ 0 := Nat.cast_ne_zero.mpr h.ne'
  set x : ℚ := 15 + (80 / (N : ℚ)) * (p : ℚ) with hx
  have h95 : (⌊(95 : ℚ) + 1/2⌋ : ℤ) = 95 := by norm_num
  have hcomm : ⌊min (95 : ℚ) x + 1/2⌋ = min 95 ⌊x + 1/2⌋ := by
    rcases le_total x 95 with hle | hge
    · have hb : ⌊x + 1/2⌋ ≤ (95 : ℤ) := by
        have := Int.floor_le_floor (α := ℚ) (add_le_add_right hle (1/2))
        omega
      rw [min_eq_right hle, min_eq_right hb]
    · have hb : (95 : ℤ) ≤ ⌊x + 1/2⌋ := by
        have := Int.floor_le_floor (α := ℚ) (add_le_add_right hge (1/2))
        omega
      rw [min_eq_left hge, min_eq_left hb, h95]
  have hval : x + 1/2 = (((31 * N + 160 * p : ℕ) : ℤ) : ℚ) / ((2 * N : ℕ) : ℚ) := by
    rw [hx]
    push_cast
    field_simp
    ring
  have hfloor : ⌊x + 1/2⌋ = ((31 * N + 160 * p : ℕ) : ℤ) / ((2 * N : ℕ) : ℤ) := by
    rw [hval]
    exact Rat.floor_intCast_div_natCast _ _
  have hdiv : (((31 * N + 160 * p) / (2 * N) : ℕ) : ℤ) =
      ((31 * N + 160 * p : ℕ) : ℤ) / ((2 * N : ℕ) : ℤ) := Int.ofNat_tdiv _ _
  unfold pageProgressRat jsRound pageProgress
  rw [← hx, hcomm, hfloor, Nat.cast_min, hdiv]
  norm_num

/-- `pageProgress` is monotone in the page number. -/
theorem pageProgress_mono (N : ℕ) {p q : ℕ} (h : p ≤ q) :
    pageProgress N p ≤ pageProgress N q := by
  unfold pageProgress
  exact min_le_min le_rfl (Nat.div_le_div_right (by omega))

/-- `filterMap id` over an option-producing map is a filter-then-map. -/
theorem filterMap_id_map_ite {α β : Type} (l : List α) (c : α → Prop) [DecidablePred c]
    (g : α → β) :
    ((l.map fun p => if c p then none else some (g p)).filterMap id) =
      (l.filter fun p => ¬ c p).map g := by
  induction l with
  | nil => rfl
  | cons a l ih =>
      by_cases h : c a <;>
        simp [List.filter_cons, List.filterMap_cons, h, ih]

/-- The fulfilled results are exactly the non-failed pages, in page order. -/
theorem successfulResults_eq (documentId : ℕ) (env : Env) :
    successfulResults documentId env =
      ((pageNumbersList env.pageCount).filter fun p => p ∉ env.failedPages).map
        fun p => PageImage.mk p (firebaseUrlFor documentId p) := by
  unfold successfulResults settledResults
  exact filterMap_id_map_ite _ _ _

/-- The fulfilled results carry strictly increasing page numbers. -/
theorem successfulResults_pairwise (documentId : ℕ) (env : Env) :
    (successfulResults documentId env).Pairwise
      fun a b => a.pageNumber < b.pageNumber := by
  rw [successfulResults_eq]
  rw [List.pairwise_map]
  exact ((List.pairwise_lt_range' 1 env.pageCount).filter _)

/-- The `.sort` at line 163 is the identity here: `allSettled` already
returns results in input order, so the fulfilled list is sorted. -/
theorem sortByPageNumber_successfulResults (documentId : ℕ) (env : Env) :
    sortByPageNumber (successfulResults documentId env) =
      successfulResults documentId env := by
  unfold sortByPageNumber
  exact List.Sorted.insertionSort_eq
    ((successfulResults_pairwise documentId env).imp Nat.le_of_lt)

/-- Page numbers of the aggregate's entries: the non-failed pages in
ascending order. -/
theorem buildAggregate_pageNumbers (documentId : ℕ) (env : Env) :
    (buildAggregate documentId env).images.map PageImage.pageNumber =
      (pageNumbersList env.pageCount).filter fun p => p ∉ env.failedPages := by
  unfold buildAggregate
  rw [sortByPageNumber_successfulResults, successfulResults_eq, List.map_map]
  have hcomp : (PageImage.pageNumber ∘ fun p => PageImage.mk p (firebaseUrlFor documentId p)) =
      fun p => p := rfl
  rw [hcomp, List.map_id']

/-- On a run whose job-level steps all succeed, the worker persists
`buildAggregate`, reports no error to the queue, and finalizes the record. -/
theorem runWorker_ok_eq (documentId : ℕ) (env : Env) (order : List ℕ)
    (r0 : DocumentRecord) (hf : env.fetchOk = true) (he : env.extractOk = true)
    (hj : env.jsonWriteOk = true) :
    (runWorker documentId env order r0).aggregate = some (buildAggregate documentId env) ∧
    (runWorker documentId env order r0).queueError = none ∧
    (runWorker documentId env order r0).record =
      finalizeUpdate
        ((progressWrites env order).foldl (fun r v => progressUpdate r 0 v) r0) 0 := by
  unfold runWorker runTry
  rw [hf, he, hj]
  simp

/-- A chain of per-page progress updates never touches
`processingComplete`. -/
theorem foldl_progressUpdate_complete (l : List ℕ) (r : DocumentRecord) :
    (l.foldl (fun r v => progressUpdate r 0 v) r).processingComplete =
      r.processingComplete := by
  induction l generalizing r with
  | nil => rfl
  | cons v l ih => simpa [progressUpdate] using ih (progressUpdate r 0 v)

/-- A chain of per-page progress updates never touches
`processingError`. -/
theorem foldl_progressUpdate_error (l : List ℕ) (r : DocumentRecord) :
    (l.foldl (fun r v => progressUpdate r 0 v) r).processingError =
      r.processingError := by
  induction l generalizing r with
  | nil => rfl
  | cons v l ih => simpa [progressUpdate] using ih (progressUpdate r 0 v)

/-! ## Claims -/

/-- C1, counterexample.  A two-page job whose page 1 task rejected (render
or upload threw) and whose extraction succeeded persists an aggregate with
`pageCount = 2` but only one entry — page 1 is silently dropped from the
entry list, refuting "contains exactly N PageResult entries" and "pages
whose render or upload failed are still counted and reported in the
aggregate, never silently dropped". -/
theorem C1_counterexample :
    ((runWorker 7
        { fetchOk := true, extractOk := true, pageCount := 2,
          failedPages := [1], jsonWriteOk := true } [1, 2]
        { processingProgress := 0, processingComplete := false,
          processingError := none, updatedAt := 0 }).aggregate.map
      fun a => (a.pageCount, a.images.map PageImage.pageNumber)) =
      some (2, [2]) := by
  decide

/-- C1, amended: for every job whose extraction and finalizing write
succeed, the persisted aggregate records `pageCount = N` and contains one
entry per page whose task fulfilled, sorted strictly increasing by
`pageNumber` with no duplicates; pages whose render or upload failed are
omitted from the entry list (only `pageCount` still reflects them). -/
theorem C1_aggregate_entries (documentId : ℕ) (env : Env) (order : List ℕ)
    (r0 : DocumentRecord) (hf : env.fetchOk = true) (he : env.extractOk = true)
    (hj : env.jsonWriteOk = true) :
    ∃ a, (runWorker documentId env order r0).aggregate = some a ∧
      a.pageCount = env.pageCount ∧
      a.images.map PageImage.pageNumber =
        ((pageNumbersList env.pageCount).filter fun p => p ∉ env.failedPages) ∧
      (a.images.map PageImage.pageNumber).Pairwise (· < ·) := by
  obtain ⟨hagg, -, -⟩ := runWorker_ok_eq documentId env order r0 hf he hj
  refine ⟨buildAggregate documentId env, hagg, rfl,
    buildAggregate_pageNumbers documentId env, ?_⟩
  rw [buildAggregate_pageNumbers]
  exact (List.pairwise_lt_range' 1 env.pageCount).filter _

/-- Witness for `C1_aggregate_entries` at a concrete input. -/
theorem C1_aggregate_entries_witness :
    ∃ a, (runWorker 7
        { fetchOk := true, extractOk := true, pageCount := 3,
          failedPages := [2], jsonWriteOk := true } [3, 1, 2]
        { processingProgress := 0, processingComplete := false,
          processingError := none, updatedAt := 0 }).aggregate = some a ∧
      a.pageCount = 3 ∧
      a.images.map PageImage.pageNumber =
        ((pageNumbersList 3).filter fun p => p ∉ [2]) ∧
      (a.images.map PageImage.pageNumber).Pairwise (· < ·) :=
  C1_aggregate_entries 7
    { fetchOk := true, extractOk := true, pageCount := 3,
      failedPages := [2], jsonWriteOk := true } [3, 1, 2]
    { processingProgress := 0, processingComplete := false,
      processingError := none, updatedAt := 0 } rfl rfl rfl

/-- C2, counterexample.  With two pages, no failures, and page 2's task
finishing before page 1's (a schedule `p-limit(2)` permits), the Document
Record sees progress 95, then 55, then 100: the write of 55 is lower than
the previously written 95, refuting monotonicity. -/
theorem C2_counterexample :
    validOrder
      { fetchOk := true, extractOk := true, pageCount := 2,
        failedPages := [], jsonWriteOk := true } [2, 1] ∧
    progressTrace
      { fetchOk := true, extractOk := true, pageCount := 2,
        failedPages := [], jsonWriteOk := true } [2, 1] = [95, 55, 100] ∧
    55 < 95 := by
  refine ⟨by decide, by decide, by decide⟩

/-- C2, amended: the progress value written when a page completes is a
function of that page's number alone, so the write sequence is
monotonically non-decreasing whenever page tasks happen to complete in
page-number order (failed pages write nothing); under out-of-order
completion a lower value can be written after a higher one
(`C2_counterexample`). -/
theorem C2_progress_monotone_in_order (env : Env) :
    (progressTrace env (pageNumbersList env.pageCount)).Pairwise (· ≤ ·) := by
  unfold progressTrace
  rcases hfe : env.fetchOk && env.extractOk with _ | _
  · simp
  · simp only [if_true]
    rw [List.pairwise_append]
    refine ⟨?_, ?_, ?_⟩
    · unfold progressWrites
      rw [List.pairwise_map]
      exact ((List.pairwise_lt_range' 1 env.pageCount).filter _).imp
        fun h => pageProgress_mono env.pageCount (Nat.le_of_lt h)
    · rcases env.jsonWriteOk with _ | _ <;> simp
    · intro a ha b hb
      unfold progressWrites at ha
      obtain ⟨p, -, rfl⟩ := List.mem_map.mp ha
      have ha95 : pageProgress env.pageCount p ≤ 95 := min_le_left _ _
      rcases env.jsonWriteOk with _ | _ <;> simp_all <;> omega

/-- C3, counterexample.  Two pages, none failing, page 2 completing first:
the progress written after the first completed page (`k = 1`) is 95, not
the claimed `15 + round(80·1/2) = 55`; the code keys the formula by the
completing page's number, not by the count of completed pages. -/
theorem C3_counterexample :
    validOrder
      { fetchOk := true, extractOk := true, pageCount := 2,
        failedPages := [], jsonWriteOk := true } [2, 1] ∧
    progressWrites
      { fetchOk := true, extractOk := true, pageCount := 2,
        failedPages := [], jsonWriteOk := true } [2, 1] = [95, 55] ∧
    (pageNumbersList 2).map (specProgressAfter 2) = [55, 95] ∧
    (95 : ℕ) ≠ 55 := by
  refine ⟨by decide, by decide, by decide, by decide⟩

/-- C3, amended: the spec's formula `min 95 (15 + round(80·k/N))` is the
value the code writes, but with `k` the completing page's `pageNumber`
rather than the count of completed pages, and only pages that complete
successfully write progress at all (a failed page writes nothing). -/
theorem C3_progress_formula (N p : ℕ) (h : 0 < N) :
    pageProgress N p = specProgressAfter N p := by
  unfold pageProgress specProgressAfter
  have h2 : 0 < 2 * N := by omega
  have hsplit : 31 * N + 160 * p = 160 * p + N + 2 * N * 15 := by ring
  rw [hsplit, Nat.add_mul_div_left _ _ h2]
  rw [Nat.add_comm ((160 * p + N) / (2 * N)) 15]

/-- Witness for `C3_progress_formula` at a concrete input. -/
theorem C3_progress_formula_witness :
    0 < 2 ∧ pageProgress 2 1 = specProgressAfter 2 1 :=
  ⟨by decide, C3_progress_formula 2 1 (by decide)⟩

/-- C4, counterexample.  A page whose upload fails persistently gets
exactly one upload attempt — there is no per-page retry loop — whereas the
claimed policy makes `1 + maxRetries` attempts (2 already for
`maxRetries = 1`). -/
theorem C4_counterexample :
    uploadAttempts 1 3 2 { renderFails := false, uploadFails := true } = 1 ∧
    specUploadAttemptsOnFailure 1 = 2 ∧ (1 : ℕ) ≠ 2 := by
  refine ⟨by decide, by decide, by decide⟩

/-- C4, amended: the upload step is attempted exactly once per page (zero
times when the render already threw) with no retry and no per-page backoff;
a failed upload rejects the page's task, which `Promise.allSettled`
isolates from sibling pages, and the page is omitted from the aggregate.
Retry with exponential backoff exists only at whole-job granularity, in the
queue's default job options (3 attempts, exponential, base delay 5000 ms). -/
theorem C4_upload_single_attempt (documentId pageCount pageNumber : ℕ)
    (f : PageFault) :
    uploadAttempts documentId pageCount pageNumber f =
      (if f.renderFails then 0 else 1) ∧
    pdfProcessingQueueOptions =
      { attempts := 3, backoffType := "exponential", backoffDelay := 5000 } := by
  refine ⟨?_, rfl⟩
  unfold uploadAttempts processPageOps
  rcases f with ⟨r, u⟩
  cases r <;> cases u <;>
    simp [isUploadAttempt, List.countP_append, List.countP_cons]

/-- C5, counterexample.  The artifact the worker persists for a concrete
finalizing job is `{documentId, pageCount, images}` — there is no `pages`
key, no `processedDate`, and entries are `{pageNumber, firebaseUrl}` with
no `text` or `status` field. -/
theorem C5_counterexample :
    Json.topKeys (aggregateJson (buildAggregate 7
        { fetchOk := true, extractOk := true, pageCount := 2,
          failedPages := [], jsonWriteOk := true })) =
      ["documentId", "pageCount", "images"] ∧
    Json.topKeys (aggregateJson (buildAggregate 7
        { fetchOk := true, extractOk := true, pageCount := 2,
          failedPages := [], jsonWriteOk := true })) ≠ specArtifactTopKeys ∧
    "processedDate" ∉ Json.topKeys (aggregateJson (buildAggregate 7
        { fetchOk := true, extractOk := true, pageCount := 2,
          failedPages := [], jsonWriteOk := true })) ∧
    (∀ img ∈ (buildAggregate 7
        { fetchOk := true, extractOk := true, pageCount := 2,
          failedPages := [], jsonWriteOk := true }).images,
      Json.topKeys (imageJson img) ≠ specPageEntryKeys) := by
  refine ⟨by decide, by decide, by decide, by decide⟩

/-- C5, amended: for every job that reaches Finalizing, the persisted
artifact JSON has the shape
`{documentId, pageCount, images: [{pageNumber, firebaseUrl}]}`, the
`images` array holding only the successfully processed pages. -/
theorem C5_artifact_shape (documentId : ℕ) (env : Env) (order : List ℕ)
    (r0 : DocumentRecord) (hf : env.fetchOk = true) (he : env.extractOk = true)
    (hj : env.jsonWriteOk = true) :
    (runWorker documentId env order r0).aggregate =
      some (buildAggregate documentId env) ∧
    Json.topKeys (aggregateJson (buildAggregate documentId env)) =
      ["documentId", "pageCount", "images"] ∧
    ∀ img ∈ (buildAggregate documentId env).images,
      Json.topKeys (imageJson img) = ["pageNumber", "firebaseUrl"] := by
  obtain ⟨hagg, -, -⟩ := runWorker_ok_eq documentId env order r0 hf he hj
  exact ⟨hagg, rfl, fun img _ => rfl⟩

/-- Witness for `C5_artifact_shape` at a concrete input. -/
theorem C5_artifact_shape_witness :
    (runWorker 9
        { fetchOk := true, extractOk := true, pageCount := 1,
          failedPages := [], jsonWriteOk := true } [1]
        { processingProgress := 0, processingComplete := false,
          processingError := none, updatedAt := 0 }).aggregate =
      some (buildAggregate 9
        { fetchOk := true, extractOk := true, pageCount := 1,
          failedPages := [], jsonWriteOk := true }) ∧
    Json.topKeys (aggregateJson (buildAggregate 9
        { fetchOk := true, extractOk := true, pageCount := 1,
          failedPages := [], jsonWriteOk := true })) =
      ["documentId", "pageCount", "images"] ∧
    ∀ img ∈ (buildAggregate 9
        { fetchOk := true, extractOk := true, pageCount := 1,
          failedPages := [], jsonWriteOk := true }).images,
      Json.topKeys (imageJson img) = ["pageNumber", "firebaseUrl"] :=
  C5_artifact_shape 9
    { fetchOk := true, extractOk := true, pageCount := 1,
      failedPages := [], jsonWriteOk := true } [1]
    { processingProgress := 0, processingComplete := false,
      processingError := none, updatedAt := 0 } rfl rfl rfl

/-- C6, counterexample.  In a two-page job whose page 1 task threw, the job
still finalizes (`processingComplete = true`) but the persisted aggregate
has no entry at all for page 1 — it is not "recorded with `status=failed`,
`imageUrl=null`"; no record of the failed page exists. -/
theorem C6_counterexample :
    ((runWorker 7
        { fetchOk := true, extractOk := true, pageCount := 2,
          failedPages := [1], jsonWriteOk := true } [2, 1]
        { processingProgress := 0, processingComplete := false,
          processingError := none, updatedAt := 0 }).aggregate.map
      fun a => a.images.map PageImage.pageNumber) = some [2] ∧
    (runWorker 7
        { fetchOk := true, extractOk := true, pageCount := 2,
          failedPages := [1], jsonWriteOk := true } [2, 1]
        { processingProgress := 0, processingComplete := false,
          processingError := none, updatedAt := 0 }).record.processingComplete =
      true := by
  refine ⟨by decide, by decide⟩

/-- C6, amended: a page whose render or upload throws is omitted from the
persisted aggregate (its rejection is only logged); its failure prevents
neither sibling page tasks — every non-failed page still appears in the
aggregate — nor the job's Finalizing step, which still sets
`processingComplete = true` and reports no error to the queue. -/
theorem C6_page_failure_isolated (documentId : ℕ) (env : Env) (order : List ℕ)
    (r0 : DocumentRecord) (p : ℕ) (hf : env.fetchOk = true)
    (he : env.extractOk = true) (hj : env.jsonWriteOk = true)
    (hp : p ∈ env.failedPages) :
    ∃ a, (runWorker documentId env order r0).aggregate = some a ∧
      p ∉ a.images.map PageImage.pageNumber ∧
      (∀ q, q ∈ pageNumbersList env.pageCount → q ∉ env.failedPages →
        q ∈ a.images.map PageImage.pageNumber) ∧
      (runWorker documentId env order r0).record.processingComplete = true ∧
      (runWorker documentId env order r0).queueError = none := by
  obtain ⟨hagg, hq, hrec⟩ := runWorker_ok_eq documentId env order r0 hf he hj
  refine ⟨buildAggregate documentId env, hagg, ?_, ?_, ?_, hq⟩
  · rw [buildAggregate_pageNumbers, List.mem_filter]
    intro hmem
    exact (by simpa using hmem.2 : p ∉ env.failedPages) hp
  · intro q hq1 hq2
    rw [buildAggregate_pageNumbers, List.mem_filter]
    refine ⟨hq1, ?_⟩
    simpa using hq2
  · rw [hrec]
    rfl

/-- Witness for `C6_page_failure_isolated` at a concrete input. -/
theorem C6_page_failure_isolated_witness :
    ∃ a, (runWorker 7
        { fetchOk := true, extractOk := true, pageCount := 2,
          failedPages := [2], jsonWriteOk := true } [2, 1]
        { processingProgress := 0, processingComplete := false,
          processingError := none, updatedAt := 0 }).aggregate = some a ∧
      2 ∉ a.images.map PageImage.pageNumber ∧
      (∀ q, q ∈ pageNumbersList 2 → q ∉ [2] →
        q ∈ a.images.map PageImage.pageNumber) ∧
      (runWorker 7
        { fetchOk := true, extractOk := true, pageCount := 2,
          failedPages := [2], jsonWriteOk := true } [2, 1]
        { processingProgress := 0, processingComplete := false,
          processingError := none, updatedAt := 0 }).record.processingComplete =
        true ∧
      (runWorker 7
        { fetchOk := true, extractOk := true, pageCount := 2,
          failedPages := [2], jsonWriteOk := true } [2, 1]
        { processingProgress := 0, processingComplete := false,
          processingError := none, updatedAt := 0 }).queueError = none :=
  C6_page_failure_isolated 7
    { fetchOk := true, extractOk := true, pageCount := 2,
      failedPages := [2], jsonWriteOk := true } [2, 1]
    { processingProgress := 0, processingComplete := false,
      processingError := none, updatedAt := 0 } 2 rfl rfl rfl (by decide)

/-- C7, confirmed: on every job-level error — source fetch failure,
extractor crash, or storage write failure during finalizing — the worker
writes `processingError = <message>` to the Document Record, leaves
`processingComplete` at its prior value (never sets it true), persists no
aggregate, and rethrows so the same message propagates to the queue. -/
theorem C7_job_error_propagates (documentId : ℕ) (env : Env) (order : List ℕ)
    (r0 : DocumentRecord)
    (herr : env.fetchOk = false ∨ env.extractOk = false ∨ env.jsonWriteOk = false) :
    ∃ msg, (runWorker documentId env order r0).queueError = some msg ∧
      (runWorker documentId env order r0).record.processingError = some msg ∧
      (runWorker documentId env order r0).record.processingComplete =
        r0.processingComplete ∧
      (runWorker documentId env order r0).aggregate = none := by
  cases hfo : env.fetchOk
  · refine ⟨fetchErrorMsg, ?_⟩
    simp [runWorker, runTry, hfo, errorUpdate]
  · cases heo : env.extractOk
    · refine ⟨extractErrorMsg, ?_⟩
      simp [runWorker, runTry, hfo, heo, errorUpdate]
    · cases hjo : env.jsonWriteOk
      · refine ⟨jsonWriteErrorMsg, ?_⟩
        simp [runWorker, runTry, hfo, heo, hjo, errorUpdate,
          foldl_progressUpdate_complete]
      · rcases herr with h | h | h <;> simp_all

/-- Witness for `C7_job_error_propagates` at a concrete input (source fetch
fails). -/
theorem C7_job_error_propagates_witness :
    ∃ msg, (runWorker 4
        { fetchOk := false, extractOk := true, pageCount := 2,
          failedPages := [], jsonWriteOk := true } [1, 2]
        { processingProgress := 0, processingComplete := false,
          processingError := none, updatedAt := 0 }).queueError = some msg ∧
      (runWorker 4
        { fetchOk := false, extractOk := true, pageCount := 2,
          failedPages := [], jsonWriteOk := true } [1, 2]
        { processingProgress := 0, processingComplete := false,
          processingError := none, updatedAt := 0 }).record.processingError =
        some msg ∧
      (runWorker 4
        { fetchOk := false, extractOk := true, pageCount := 2,
          failedPages := [], jsonWriteOk := true } [1, 2]
        { processingProgress := 0, processingComplete := false,
          processingError := none, updatedAt := 0 }).record.processingComplete =
        false ∧
      (runWorker 4
        { fetchOk := false, extractOk := true, pageCount := 2,
          failedPages := [], jsonWriteOk := true } [1, 2]
        { processingProgress := 0, processingComplete := false,
          processingError := none, updatedAt := 0 }).aggregate = none :=
  C7_job_error_propagates 4
    { fetchOk := false, extractOk := true, pageCount := 2,
      failedPages := [], jsonWriteOk := true } [1, 2]
    { processingProgress := 0, processingComplete := false,
      processingError := none, updatedAt := 0 } (Or.inl rfl)

/-- C8, confirmed: a zero-page document is valid input — with `N = 0` the
fan-out is empty, the job proceeds straight to Finalizing, persists an
aggregate with `pageCount = 0` and no entries, and completes with
`processingProgress = 100`, `processingComplete = true`, no error recorded
and no error reported to the queue. -/
theorem C8_zero_pages (documentId : ℕ) (order : List ℕ) (r0 : DocumentRecord)
    (h0 : r0.processingError = none)
    (hord : validOrder
      { fetchOk := true, extractOk := true, pageCount := 0,
        failedPages := [], jsonWriteOk := true } order) :
    (runWorker documentId
        { fetchOk := true, extractOk := true, pageCount := 0,
          failedPages := [], jsonWriteOk := true } order r0).record.processingProgress
      = 100 ∧
    (runWorker documentId
        { fetchOk := true, extractOk := true, pageCount := 0,
          failedPages := [], jsonWriteOk := true } order r0).record.processingComplete
      = true ∧
    (runWorker documentId
        { fetchOk := true, extractOk := true, pageCount := 0,
          failedPages := [], jsonWriteOk := true } order r0).record.processingError
      = none ∧
    (runWorker documentId
        { fetchOk := true, extractOk := true, pageCount := 0,
          failedPages := [], jsonWriteOk := true } order r0).aggregate =
      some { documentId := documentId, pageCount := 0, images := [] } ∧
    (runWorker documentId
        { fetchOk := true, extractOk := true, pageCount := 0,
          failedPages := [], jsonWriteOk := true } order r0).queueError = none := by
  have horder : order = [] := by
    have h := hord
    unfold validOrder pageNumbersList at h
    exact h.eq_nil
  subst horder
  refine ⟨?_, ?_, ?_, ?_, ?_⟩ <;>
    simp [runWorker, runTry, progressWrites, finalizeUpdate, buildAggregate,
      sortByPageNumber, successfulResults, settledResults, pageNumbersList, h0]

/-- Witness for `C8_zero_pages` at a concrete input. -/
theorem C8_zero_pages_witness :
    (runWorker 3
        { fetchOk := true, extractOk := true, pageCount := 0,
          failedPages := [], jsonWriteOk := true } []
        { processingProgress := 0, processingComplete := false,
          processingError := none, updatedAt := 0 }).record.processingProgress
      = 100 ∧
    (runWorker 3
        { fetchOk := true, extractOk := true, pageCount := 0,
          failedPages := [], jsonWriteOk := true } []
        { processingProgress := 0, processingComplete := false,
          processingError := none, updatedAt := 0 }).record.processingComplete
      = true ∧
    (runWorker 3
        { fetchOk := true, extractOk := true, pageCount := 0,
          failedPages := [], jsonWriteOk := true } []
        { processingProgress := 0, processingComplete := false,
          processingError := none, updatedAt := 0 }).record.processingError
      = none ∧
    (runWorker 3
        { fetchOk := true, extractOk := true, pageCount := 0,
          failedPages := [], jsonWriteOk := true } []
        { processingProgress := 0, processingComplete := false,
          processingError := none, updatedAt := 0 }).aggregate =
      some { documentId := 3, pageCount := 0, images := [] } ∧
    (runWorker 3
        { fetchOk := true, extractOk := true, pageCount := 0,
          failedPages := [], jsonWriteOk := true } []
        { processingProgress := 0, processingComplete := false,
          processingError := none, updatedAt := 0 }).queueError = none :=
  C8_zero_pages 3 []
    { processingProgress := 0, processingComplete := false,
      processingError := none, updatedAt := 0 } rfl (by decide)

/-- C9, counterexample.  Rendering page 3 of a 5-page document writes the
pre-split single-page temporary file `temp/7_page_3.pdf` before invoking
`sharp` on it, refuting "writes no intermediate pre-split single-page
temporary files during rendering". -/
theorem C9_counterexample :
    PageOp.writeSinglePagePdf (singlePagePdfPath 7 3) ∈
      processPageOps 7 5 3 { renderFails := false, uploadFails := false } := by
  decide

/-- C9, amended: the page task does take the whole document buffer plus a
page index as input, but it materializes a pre-split single-page temporary
PDF on disk and renders from that file path; the file is unlinked again
only when both render and upload succeed. -/
theorem C9_single_page_temp_file (documentId pageCount pageNumber : ℕ)
    (f : PageFault) :
    PageOp.writeSinglePagePdf (singlePagePdfPath documentId pageNumber) ∈
      processPageOps documentId pageCount pageNumber f ∧
    PageOp.sharpRender (singlePagePdfPath documentId pageNumber) ∈
      processPageOps documentId pageCount pageNumber f ∧
    (f.renderFails = false → f.uploadFails = false →
      PageOp.unlinkSinglePagePdf (singlePagePdfPath documentId pageNumber) ∈
        processPageOps documentId pageCount pageNumber f) := by
  rcases f with ⟨r, u⟩
  refine ⟨?_, ?_, ?_⟩ <;> cases r <;> cases u <;> simp [processPageOps]

/-- Witness for `C9_single_page_temp_file` at a concrete input. -/
theorem C9_single_page_temp_file_witness :
    PageOp.writeSinglePagePdf (singlePagePdfPath 2 1) ∈
      processPageOps 2 4 1 { renderFails := false, uploadFails := false } ∧
    PageOp.sharpRender (singlePagePdfPath 2 1) ∈
      processPageOps 2 4 1 { renderFails := false, uploadFails := false } ∧
    PageOp.unlinkSinglePagePdf (singlePagePdfPath 2 1) ∈
      processPageOps 2 4 1 { renderFails := false, uploadFails := false } :=
  have h := C9_single_page_temp_file 2 4 1 { renderFails := false, uploadFails := false }
  ⟨h.1, h.2.1, h.2.2 rfl rfl⟩

/-- C10, confirmed: on the job-level error path the Document Record update
is `errorUpdate`, which writes only `updatedAt` and `processingError` —
`processingProgress` and `processingComplete` keep whatever values they
held before the error (in particular `processingComplete` stays at its
pre-run value) — and the failed run performs no file deletion at all, so
the temp PDF is not removed. -/
theorem C10_error_path_frame (documentId : ℕ) (env : Env) (order : List ℕ)
    (r0 : DocumentRecord) (msg : String)
    (hfail : (runWorker documentId env order r0).queueError = some msg) :
    (runWorker documentId env order r0).record.processingError = some msg ∧
    (runWorker documentId env order r0).record.processingComplete =
      r0.processingComplete ∧
    (∀ r now m, (errorUpdate r now m).processingProgress = r.processingProgress ∧
      (errorUpdate r now m).processingComplete = r.processingComplete ∧
      (errorUpdate r now m).updatedAt = now ∧
      (errorUpdate r now m).processingError = some m) ∧
    (∀ pth, WorkerOp.fsUnlink pth ∉ (runWorker documentId env order r0).ops) := by
  refine ⟨?_, ?_, fun r now m => ⟨rfl, rfl, rfl, rfl⟩, ?_⟩ <;>
    cases hfo : env.fetchOk <;> cases heo : env.extractOk <;>
      cases hjo : env.jsonWriteOk <;>
        simp_all [runWorker, runTry, errorUpdate, catchOps,
          foldl_progressUpdate_complete, List.mem_replicate]

/-- Witness for `C10_error_path_frame` at a concrete input (finalizing
storage write fails after both pages processed). -/
theorem C10_error_path_frame_witness :
    (runWorker 5
        { fetchOk := true, extractOk := true, pageCount := 2,
          failedPages := [], jsonWriteOk := false } [1, 2]
        { processingProgress := 0, processingComplete := false,
          processingError := none, updatedAt := 0 }).record.processingError =
      some jsonWriteErrorMsg ∧
    (runWorker 5
        { fetchOk := true, extractOk := true, pageCount := 2,
          failedPages := [], jsonWriteOk := false } [1, 2]
        { processingProgress := 0, processingComplete := false,
          processingError := none, updatedAt := 0 }).record.processingComplete =
      false ∧
    (∀ r now m, (errorUpdate r now m).processingProgress = r.processingProgress ∧
      (errorUpdate r now m).processingComplete = r.processingComplete ∧
      (errorUpdate r now m).updatedAt = now ∧
      (errorUpdate r now m).processingError = some m) ∧
    (∀ pth, WorkerOp.fsUnlink pth ∉ (runWorker 5
        { fetchOk := true, extractOk := true, pageCount := 2,
          failedPages := [], jsonWriteOk := false } [1, 2]
        { processingProgress := 0, processingComplete := false,
          processingError := none, updatedAt := 0 }).ops) :=
  C10_error_path_frame 5
    { fetchOk := true, extractOk := true, pageCount := 2,
      failedPages := [], jsonWriteOk := false } [1, 2]
    { processingProgress := 0, processingComplete := false,
      processingError := none, updatedAt := 0 } jsonWriteErrorMsg (by decide)

end PdfWorker
